import Mathlib

/-!
Shallow embedding of the Safety-Wrappers backend: the wrapper finite-state
monitors (`noop`, `keyword`, `history`, `query_budget`) and the orchestrator
`query` loop from `src/backend`, together with theorems settling the claims
about them.  Python strings are Lean `String`s; Python `str.strip`, `str.lower`
and the `in` substring test are embedded char-wise; Python ints are `Int`;
the remote model is an oracle `Nat → Option String` (indexed by the number of
calls made so far, `none` = transport failure); the JSONL trace log is the
list of records appended during one request.
-/

namespace SafetyWrappers

/-- Python `str.strip()`: drop leading and trailing whitespace. -/
def pyStrip (s : String) : String :=
  ⟨((s.data.dropWhile Char.isWhitespace).reverse.dropWhile Char.isWhitespace).reverse⟩

/-- Python `str.lower()` (char-wise lowercasing). -/
def pyLower (s : String) : String :=
  ⟨s.data.map Char.toLower⟩

/-- Python `pat in s` substring test. -/
def strContains (s pat : String) : Bool :=
  decide (pat.data <:+: s.data)

/-- `backend.wrappers.base.Action`. -/
inductive Action where
  | ALLOW
  | BLOCK
  | MODIFY
  | REQUERY
deriving DecidableEq, Repr

/-- `Action.value`: the string payload of the enum member. -/
def Action.value : Action → String
  | .ALLOW => "ALLOW"
  | .BLOCK => "BLOCK"
  | .MODIFY => "MODIFY"
  | .REQUERY => "REQUERY"

/-- State of `backend.wrappers.keyword.KeywordWrapper`: the lowered keyword list. -/
structure KeywordState where
  keywords : List String
deriving DecidableEq, Repr

namespace KeywordWrapper

def BLOCK_MESSAGE : String := "[Blocked by keyword wrapper]"

/-- `KeywordWrapper.__init__`: lower each configured banned keyword; a missing
`banned_keywords` entry defaults to the empty list. -/
def mk (banned_keywords : Option (List String)) : KeywordState :=
  ⟨(banned_keywords.getD []).map pyLower⟩

/-- `KeywordWrapper.step`: BLOCK with the fixed message when some banned keyword
occurs in the lowered prompt, else ALLOW the model output. -/
def step (st : KeywordState) (user_prompt model_output : String)
    (call_index : Nat) : Action × String :=
  if st.keywords.any (fun kw => strContains (pyLower user_prompt) kw) then
    (.BLOCK, BLOCK_MESSAGE)
  else
    (.ALLOW, model_output)

end KeywordWrapper

/-- State of `backend.wrappers.history.HistoryWrapper`: capacity `_k` and the
buffer of recently allowed (stripped) outputs, oldest first. -/
structure HistoryState where
  k : Int
  buffer : List String
deriving DecidableEq, Repr

namespace HistoryWrapper

/-- `HistoryWrapper.__init__`: `_k = int(config.get("k", 3))`, empty buffer. -/
def mk (kcfg : Option Int) : HistoryState :=
  ⟨kcfg.getD 3, []⟩

/-- `HistoryWrapper.reset`: clear the buffer. -/
def reset (st : HistoryState) : HistoryState :=
  ⟨st.k, []⟩

/-- `HistoryWrapper.step`: REQUERY when the stripped output is empty or already
buffered; otherwise append it (popping the front when the buffer overflows `_k`)
and ALLOW the original output. -/
def step (st : HistoryState) (user_prompt model_output : String)
    (call_index : Nat) : Action × String × HistoryState :=
  let out_stripped := pyStrip model_output
  if out_stripped = "" then
    (.REQUERY, "", st)
  else if out_stripped ∈ st.buffer then
    (.REQUERY, "", st)
  else
    let buf0 := st.buffer ++ [out_stripped]
    let buf1 := if (buf0.length : Int) > st.k then buf0.tail else buf0
    (.ALLOW, model_output, ⟨st.k, buf1⟩)

/-- Iterate `step` over a list of `(user_prompt, model_output, call_index)`
triples, keeping only the evolving state. -/
def runSteps (st : HistoryState) (inputs : List (String × String × Nat)) :
    HistoryState :=
  inputs.foldl (fun s t => (step s t.1 t.2.1 t.2.2).2.2) st

end HistoryWrapper

/-- State of `backend.wrappers.query_budget.QueryBudgetWrapper`. -/
structure QueryBudgetState where
  max_queries : Int
  calls : Nat
deriving DecidableEq, Repr

namespace QueryBudgetWrapper

/-- `QueryBudgetWrapper.__init__`: `_max_queries = int(config.get("max_queries", 2))`. -/
def mk (mq : Option Int) : QueryBudgetState :=
  ⟨mq.getD 2, 0⟩

/-- `QueryBudgetWrapper.reset`: zero the call counter. -/
def reset (st : QueryBudgetState) : QueryBudgetState :=
  ⟨st.max_queries, 0⟩

/-- `QueryBudgetWrapper.step`: record `call_index + 1` and always ALLOW. -/
def step (st : QueryBudgetState) (user_prompt model_output : String)
    (call_index : Nat) : Action × String × QueryBudgetState :=
  (.ALLOW, model_output, ⟨st.max_queries, call_index + 1⟩)

end QueryBudgetWrapper

/-- The state of whichever wrapper the request selected (`noop` is stateless). -/
inductive WState where
  | noop
  | keyword (st : KeywordState)
  | history (st : HistoryState)
  | query_budget (st : QueryBudgetState)
deriving DecidableEq, Repr

/-- Dispatch `reset` to the selected wrapper. -/
def wreset : WState → WState
  | .noop => .noop
  | .keyword st => .keyword st
  | .history st => .history (HistoryWrapper.reset st)
  | .query_budget st => .query_budget (QueryBudgetWrapper.reset st)

/-- Dispatch `step` to the selected wrapper. -/
def wstep : WState → String → String → Nat → Action × String × WState
  | .noop, _, out, _ => (.ALLOW, out, .noop)
  | .keyword st, p, out, i =>
      let r := KeywordWrapper.step st p out i
      (r.1, r.2, .keyword st)
  | .history st, p, out, i =>
      let r := HistoryWrapper.step st p out i
      (r.1, r.2.1, .history r.2.2)
  | .query_budget st, p, out, i =>
      let r := QueryBudgetWrapper.step st p out i
      (r.1, r.2.1, .query_budget r.2.2)

/-- The configuration fields of `config.yaml` that `query` reads. -/
structure Config where
  defaultWrapper : Option String
  banned_keywords : Option (List String)
  history_k : Option Int
  qb_max_queries : Option Int
deriving DecidableEq, Repr

/-- `QueryRequest` (`main.py`). -/
structure QueryRequest where
  prompt : String
  wrapper_name : Option String
  max_queries : Option Int
deriving DecidableEq, Repr

/-- One JSONL record appended by `backend.logging.logger.log_trace`
(the fields the claims are about). -/
structure TraceRecord where
  user_prompt : String
  raw_model_outputs : List String
  wrapper_decisions : List String
  final_output : String
  total_model_calls : Nat
  wrapper_state : WState
deriving DecidableEq, Repr

/-- `log_trace`: build the record that gets appended. -/
def log_trace (user_prompt : String) (raw_model_outputs : List String)
    (wrapper_decisions : List String) (final_output : String)
    (total_model_calls : Nat) (wrapper_state : WState) : TraceRecord :=
  ⟨user_prompt, raw_model_outputs, wrapper_decisions, final_output,
    total_model_calls, wrapper_state⟩

/-- The `QueryResponse` fields plus the trace records appended during the
request (the log is append-only, so a request's effect on it is the list of
records it appends). -/
structure QueryOutcome where
  final_output : String
  wrapper_decision : String
  model_call_count : Nat
  raw_outputs : List String
  decisions_sequence : List String
  traces : List TraceRecord
deriving DecidableEq, Repr

/-- `backend.wrappers.get_wrapper`: constructor dispatch; unknown name raises. -/
def get_wrapper (name : String) (cfg : Config) : Option WState :=
  if name = "noop" then some .noop
  else if name = "keyword" then some (.keyword (KeywordWrapper.mk cfg.banned_keywords))
  else if name = "history" then some (.history (HistoryWrapper.mk cfg.history_k))
  else if name = "query_budget" then some (.query_budget (QueryBudgetWrapper.mk cfg.qb_max_queries))
  else none

/-- `wrapper_name = req.wrapper_name or cfg...get("default", "noop")`
(Python `or`: the empty string is falsy). -/
def wrapperNameOf (cfg : Config) (req : QueryRequest) : String :=
  match req.wrapper_name with
  | some s => if s = "" then cfg.defaultWrapper.getD "noop" else s
  | none => cfg.defaultWrapper.getD "noop"

/-- The `max_calls` computation in `query`: a caller override for
`query_budget` is accepted only within `[1, 10]`; `history` forces at least
`k + 2`; otherwise the configured `query_budget.max_queries` default. -/
def resolve_max_calls (cfg : Config) (req : QueryRequest)
    (wrapper_name : String) : Int :=
  let max_queries := cfg.qb_max_queries.getD 2
  let history_k := cfg.history_k.getD 3
  if wrapper_name = "query_budget" then
    match req.max_queries with
    | some user_limit =>
        if 1 ≤ user_limit ∧ user_limit ≤ 10 then user_limit
        else cfg.qb_max_queries.getD 2
    | none => cfg.qb_max_queries.getD 2
  else if wrapper_name = "history" then
    max max_queries (history_k + 2)
  else max_queries

/-- What the `while call_index < max_calls` loop hands back on success. -/
structure LoopDone where
  finalOutput : String
  raws : List String
  decisions : List Action
  state : WState
deriving DecidableEq, Repr

/-- The orchestrator loop of `query`, with fuel `max_calls - call_index`.
Each iteration makes one model call (`none` aborts the request), feeds it to
the wrapper, and either terminates on ALLOW/BLOCK/MODIFY, terminates with the
last raw output when REQUERY exhausts the budget, or continues. -/
def runLoop (model : Nat → Option String) (prompt : String) :
    Nat → WState → Nat → List String → List Action → Option LoopDone
  | 0, st, _, raws, decs => some ⟨"", raws, decs, st⟩
  | fuel + 1, st, ci, raws, decs =>
    match model raws.length with
    | none => none
    | some out =>
      if (wstep st prompt out ci).1 = Action.REQUERY then
        if fuel = 0 then
          some ⟨(raws ++ [out]).getLastD "", raws ++ [out],
                decs ++ [(wstep st prompt out ci).1], (wstep st prompt out ci).2.2⟩
        else
          runLoop model prompt fuel (wstep st prompt out ci).2.2 (ci + 1)
            (raws ++ [out]) (decs ++ [(wstep st prompt out ci).1])
      else
        some ⟨(wstep st prompt out ci).2.1, raws ++ [out],
              decs ++ [(wstep st prompt out ci).1], (wstep st prompt out ci).2.2⟩

/-- The fixed empty-prompt response: SKIP, no model call, no wrapper, no trace. -/
def skip_outcome : QueryOutcome :=
  ⟨"[Empty prompt]", "SKIP", 0, [], [], []⟩

/-- `query` (`backend.main`): empty-prompt short circuit, wrapper construction
and reset, budget resolution, keyword pre-check, the model-call loop, and the
single trace append. `none` models an HTTP error (unknown wrapper or a model
transport failure). -/
def query (cfg : Config) (req : QueryRequest) (model : Nat → Option String) :
    Option QueryOutcome :=
  let wrapper_name := wrapperNameOf cfg req
  let prompt := pyStrip req.prompt
  if prompt = "" then some skip_outcome
  else
    match get_wrapper wrapper_name cfg with
    | none => none
    | some w0 =>
      let wrapper := wreset w0
      let max_calls := resolve_max_calls cfg req wrapper_name
      let pre := wstep wrapper prompt "" 0
      if wrapper_name = "keyword" ∧ pre.1 = Action.BLOCK then
        some ⟨pre.2.1, Action.BLOCK.value, 0, [], [Action.BLOCK.value],
              [log_trace prompt [] [Action.BLOCK.value] pre.2.1 0 wrapper]⟩
      else
        match runLoop model prompt max_calls.toNat wrapper 0 [] [] with
        | none => none
        | some r =>
          let decisions_sequence := r.decisions.map Action.value
          let last_decision := decisions_sequence.getLastD Action.ALLOW.value
          some ⟨r.finalOutput, last_decision, r.raws.length, r.raws,
                decisions_sequence,
                [log_trace prompt r.raws decisions_sequence r.finalOutput
                  r.raws.length r.state]⟩

/-! ### Loop lemmas -/

/-- The loop makes at most `fuel` further model calls. -/
theorem runLoop_length_le (model : Nat → Option String) (prompt : String) :
    ∀ (fuel : Nat) (st : WState) (ci : Nat) (raws : List String)
      (decs : List Action) (r : LoopDone),
      runLoop model prompt fuel st ci raws decs = some r →
      r.raws.length ≤ raws.length + fuel := by
  intro fuel
  induction fuel with
  | zero =>
      intro st ci raws decs r h
      rw [runLoop] at h
      cases h
      simp
  | succ n ih =>
      intro st ci raws decs r h
      rw [runLoop] at h
      split at h
      · exact absurd h (by simp)
      · split at h
        · split at h
          · cases h
            simp
            try omega
          · have := ih _ _ _ _ _ h
            simp at this
            omega
        · cases h
          simp
          try omega

/-- The loop appends exactly one decision per model call. -/
theorem runLoop_decs_length (model : Nat → Option String) (prompt : String) :
    ∀ (fuel : Nat) (st : WState) (ci : Nat) (raws : List String)
      (decs : List Action) (r : LoopDone),
      runLoop model prompt fuel st ci raws decs = some r →
      r.decisions.length + raws.length = r.raws.length + decs.length := by
  intro fuel
  induction fuel with
  | zero =>
      intro st ci raws decs r h
      rw [runLoop] at h
      cases h
      simp
      try omega
  | succ n ih =>
      intro st ci raws decs r h
      rw [runLoop] at h
      split at h
      · exact absurd h (by simp)
      · split at h
        · split at h
          · cases h
            simp
            try omega
          · have := ih _ _ _ _ _ h
            simp at this
            omega
        · cases h
          simp
          try omega

/-- If a run that was allowed to start (`fuel ≠ 0`) ends with REQUERY as its
last decision, the budget was exhausted and the final output is the last raw
model output. -/
theorem runLoop_last_requery (model : Nat → Option String) (prompt : String) :
    ∀ (fuel : Nat) (st : WState) (ci : Nat) (raws : List String)
      (decs : List Action) (r : LoopDone), fuel ≠ 0 →
      runLoop model prompt fuel st ci raws decs = some r →
      r.decisions.getLast? = some Action.REQUERY →
      r.finalOutput = r.raws.getLastD "" := by
  intro fuel
  induction fuel with
  | zero => intro st ci raws decs r h0; exact absurd rfl h0
  | succ n ih =>
      intro st ci raws decs r _ h hlast
      rw [runLoop] at h
      split at h
      · exact absurd h (by simp)
      · split at h
        · split at h
          · cases h
            rfl
          · exact ih _ _ _ _ _ (by assumption) h hlast
        · rename_i hreq
          cases h
          simp at hlast
          exact absurd hlast hreq

/-- Path analysis for `query`: a successful request either hit the
empty-prompt skip, the keyword pre-check block, or ran the model loop. -/
theorem query_cases (cfg : Config) (req : QueryRequest)
    (model : Nat → Option String) (res : QueryOutcome)
    (hq : query cfg req model = some res) :
    (pyStrip req.prompt = "" ∧ res = skip_outcome) ∨
    (pyStrip req.prompt ≠ "" ∧ wrapperNameOf cfg req = "keyword" ∧
      ∃ w, get_wrapper (wrapperNameOf cfg req) cfg = some w ∧
        (wstep (wreset w) (pyStrip req.prompt) "" 0).1 = Action.BLOCK ∧
        res = ⟨(wstep (wreset w) (pyStrip req.prompt) "" 0).2.1,
               Action.BLOCK.value, 0, [], [Action.BLOCK.value],
               [log_trace (pyStrip req.prompt) [] [Action.BLOCK.value]
                 (wstep (wreset w) (pyStrip req.prompt) "" 0).2.1 0 (wreset w)]⟩) ∨
    (pyStrip req.prompt ≠ "" ∧
      ∃ w r, get_wrapper (wrapperNameOf cfg req) cfg = some w ∧
        runLoop model (pyStrip req.prompt)
          (resolve_max_calls cfg req (wrapperNameOf cfg req)).toNat
          (wreset w) 0 [] [] = some r ∧
        res = ⟨r.finalOutput,
               (r.decisions.map Action.value).getLastD Action.ALLOW.value,
               r.raws.length, r.raws, r.decisions.map Action.value,
               [log_trace (pyStrip req.prompt) r.raws
                 (r.decisions.map Action.value) r.finalOutput
                 r.raws.length r.state]⟩) := by
  simp only [query] at hq
  split at hq
  · rename_i hempty
    left
    cases hq
    exact ⟨hempty, rfl⟩
  · rename_i hne
    split at hq
    · exact absurd hq (by simp)
    · rename_i w hw
      split at hq
      · rename_i hcond
        right; left
        cases hq
        exact ⟨hne, hcond.1, w, hw, hcond.2, rfl⟩
      · split at hq
        · exact absurd hq (by simp)
        · rename_i r hr
          right; right
          cases hq
          exact ⟨hne, w, r, hw, hr, rfl⟩

/-! ### History wrapper invariant lemmas -/

/-- One `step` keeps the capacity field and never grows the buffer past it. -/
theorem hist_step_inv (st : HistoryState) (p o : String) (i : Nat)
    (h : (st.buffer.length : Int) ≤ st.k) :
    ((HistoryWrapper.step st p o i).2.2).k = st.k ∧
    (((HistoryWrapper.step st p o i).2.2).buffer.length : Int) ≤ st.k := by
  simp only [HistoryWrapper.step]
  split
  · exact ⟨rfl, h⟩
  · split
    · exact ⟨rfl, h⟩
    · refine ⟨rfl, ?_⟩
      dsimp only
      split
      · rename_i hgt
        simp only [List.length_tail, List.length_append, List.length_cons,
          List.length_nil]
        push_cast
        omega
      · rename_i hle
        simp only [List.length_append, List.length_cons, List.length_nil,
          not_lt] at hle ⊢
        push_cast at hle ⊢
        omega

/-- Iterated `step` keeps the capacity field and the buffer bound. -/
theorem hist_runSteps_inv (inputs : List (String × String × Nat)) :
    ∀ st : HistoryState, (st.buffer.length : Int) ≤ st.k →
      (HistoryWrapper.runSteps st inputs).k = st.k ∧
      ((HistoryWrapper.runSteps st inputs).buffer.length : Int) ≤ st.k := by
  induction inputs with
  | nil => exact fun st h => ⟨rfl, h⟩
  | cons t ts ih =>
      intro st h
      obtain ⟨hk, hb⟩ := hist_step_inv st t.1 t.2.1 t.2.2 h
      obtain ⟨h1, h2⟩ := ih ((HistoryWrapper.step st t.1 t.2.1 t.2.2).2.2)
        (by rw [hk]; exact hb)
      refine ⟨?_, ?_⟩
      · simp only [HistoryWrapper.runSteps, List.foldl_cons] at h1 ⊢
        rw [h1, hk]
      · simp only [HistoryWrapper.runSteps, List.foldl_cons] at h2 ⊢
        rw [hk] at h2
        exact h2

/-! ### Claim theorems -/

/-- C9: a prompt that is empty after stripping whitespace short-circuits the
orchestrator: zero model calls, decision SKIP, final output "[Empty prompt]",
no wrapper invoked and the result independent of the model oracle. -/
theorem claim_C9_empty_prompt_skip (cfg : Config) (req : QueryRequest)
    (model : Nat → Option String) (h : pyStrip req.prompt = "") :
    query cfg req model = some ⟨"[Empty prompt]", "SKIP", 0, [], [], []⟩ := by
  simp only [query]
  rw [if_pos h]
  rfl

theorem claim_C9_witness :
    pyStrip "   " = "" ∧
    query ⟨none, none, none, none⟩ ⟨"   ", some "keyword", none⟩
      (fun _ => some "a") = some ⟨"[Empty prompt]", "SKIP", 0, [], [], []⟩ :=
  ⟨by decide,
   claim_C9_empty_prompt_skip ⟨none, none, none, none⟩
     ⟨"   ", some "keyword", none⟩ (fun _ => some "a") (by decide)⟩

/-- C2: `HistoryWrapper.step` strips the model output; empty ⇒ REQUERY,
already buffered ⇒ REQUERY, otherwise it appends the stripped output
(evicting the oldest entry when the capacity is exceeded) and returns ALLOW
with the original, non-stripped output. -/
theorem claim_C2_history_step (st : HistoryState) (p out : String) (i : Nat) :
    (pyStrip out = "" →
      HistoryWrapper.step st p out i = (.REQUERY, "", st)) ∧
    (pyStrip out ≠ "" → pyStrip out ∈ st.buffer →
      HistoryWrapper.step st p out i = (.REQUERY, "", st)) ∧
    (pyStrip out ≠ "" → pyStrip out ∉ st.buffer →
      HistoryWrapper.step st p out i =
        (.ALLOW, out,
          ⟨st.k,
            if ((st.buffer ++ [pyStrip out]).length : Int) > st.k then
              (st.buffer ++ [pyStrip out]).tail
            else st.buffer ++ [pyStrip out]⟩)) := by
  refine ⟨fun h1 => ?_, fun h1 h2 => ?_, fun h1 h2 => ?_⟩
  · simp only [HistoryWrapper.step]
    rw [if_pos h1]
  · simp only [HistoryWrapper.step]
    rw [if_neg h1, if_pos h2]
  · simp only [HistoryWrapper.step]
    rw [if_neg h1, if_neg h2]

theorem claim_C2_witness :
    HistoryWrapper.step ⟨3, []⟩ "p" "  " 0 = (.REQUERY, "", ⟨3, []⟩) ∧
    HistoryWrapper.step ⟨3, ["a"]⟩ "p" " a " 0 = (.REQUERY, "", ⟨3, ["a"]⟩) ∧
    HistoryWrapper.step ⟨1, ["a"]⟩ "p" "b" 0 = (.ALLOW, "b", ⟨1, ["b"]⟩) :=
  ⟨(claim_C2_history_step ⟨3, []⟩ "p" "  " 0).1 (by decide),
   (claim_C2_history_step ⟨3, ["a"]⟩ "p" " a " 0).2.1 (by decide) (by decide),
   (claim_C2_history_step ⟨1, ["a"]⟩ "p" "b" 0).2.2 (by decide) (by decide)⟩

/-- C5 counterexample: construction does NOT clamp a negative history `k` to
`≥ 0`, and does NOT normalize a non-positive `max_queries` to `≥ 1`: the
configured values are stored unchanged. -/
theorem claim_C5_counterexample :
    ¬ (0 ≤ (HistoryWrapper.mk (some (-1))).k) ∧
    ¬ (1 ≤ (QueryBudgetWrapper.mk (some 0)).max_queries) := by
  decide

/-- C5 amended: `KeywordWrapper` does default a missing banned-keyword list to
the empty list, but `HistoryWrapper` and `QueryBudgetWrapper` store the
configured `k` / `max_queries` unchanged, with no clamping or normalization
(their `step` functions are nevertheless total). -/
theorem claim_C5_amended :
    (KeywordWrapper.mk none).keywords = [] ∧
    (∀ i : Int, (HistoryWrapper.mk (some i)).k = i) ∧
    (∀ i : Int, (QueryBudgetWrapper.mk (some i)).max_queries = i) :=
  ⟨rfl, fun _ => rfl, fun _ => rfl⟩

/-- C8: for a non-negative capacity `k`, the history buffer never exceeds `k`
entries over any sequence of steps after reset, and when an entry must be
removed to respect the capacity the oldest (front) entry is the one evicted. -/
theorem claim_C8_history_bounded_fifo (k : Int) (hk : 0 ≤ k) :
    (∀ inputs : List (String × String × Nat),
      (HistoryWrapper.runSteps
          (HistoryWrapper.reset (HistoryWrapper.mk (some k))) inputs
        ).buffer.length ≤ k.toNat) ∧
    (∀ (st : HistoryState) (p out : String) (i : Nat), st.k = k →
      ((st.buffer.length : Int) + 1 > k) → pyStrip out ≠ "" →
      pyStrip out ∉ st.buffer →
      ((HistoryWrapper.step st p out i).2.2).buffer =
        (st.buffer ++ [pyStrip out]).tail) := by
  constructor
  · intro inputs
    have h := (hist_runSteps_inv inputs
      (HistoryWrapper.reset (HistoryWrapper.mk (some k)))
      (by simp [HistoryWrapper.reset, HistoryWrapper.mk]; exact hk)).2
    simp only [HistoryWrapper.reset, HistoryWrapper.mk, Option.getD_some] at h ⊢
    omega
  · intro st p out i hksame hover h1 h2
    simp only [HistoryWrapper.step]
    rw [if_neg h1, if_neg h2]
    dsimp only
    rw [if_pos]
    simp only [List.length_append, List.length_cons, List.length_nil]
    push_cast
    omega

theorem claim_C8_witness :
    (HistoryWrapper.runSteps
        (HistoryWrapper.reset (HistoryWrapper.mk (some 3)))
        [("p", "a", 0), ("p", "b", 1)]).buffer.length ≤ (3 : Int).toNat ∧
    ((HistoryWrapper.step ⟨3, ["a", "b", "c"]⟩ "p" "d" 0).2.2).buffer =
      (["a", "b", "c"] ++ [pyStrip "d"]).tail :=
  ⟨(claim_C8_history_bounded_fifo 3 (by decide)).1 [("p", "a", 0), ("p", "b", 1)],
   (claim_C8_history_bounded_fifo 3 (by decide)).2 ⟨3, ["a", "b", "c"]⟩ "p" "d" 0
     rfl (by decide) (by decide) (by decide)⟩

/-- C1 counterexample: a banned keyword with trailing whitespace ("x ") and the
raw prompt "x " (which contains it, case-insensitively): the orchestrator
strips the prompt to "x" before the pre-check, the keyword no longer matches,
and the request is ALLOWED after one model call instead of BLOCKED with zero. -/
theorem claim_C1_counterexample :
    strContains (pyLower "x ") (pyLower "x ") = true ∧
    "x " ∈ ((⟨none, some ["x "], none, none⟩ : Config).banned_keywords.getD []) ∧
    (query ⟨none, some ["x "], none, none⟩ ⟨"x ", some "keyword", none⟩
        (fun _ => some "hello")).map
      (fun r => (r.wrapper_decision, r.model_call_count)) =
      some ("ALLOW", 1) := by
  decide

/-- C1 amended: for every configured banned keyword and every prompt whose
whitespace-stripped text is non-empty and contains the lowered keyword as a
substring of its lowered text, a keyword-wrapper request yields BLOCK, zero
model calls and the fixed block message, for every model oracle (so the block
is decided before any model call), with exactly one trace record. -/
theorem claim_C1_keyword_block (cfg : Config) (req : QueryRequest)
    (model : Nat → Option String) (kw : String)
    (hname : wrapperNameOf cfg req = "keyword")
    (hkw : kw ∈ cfg.banned_keywords.getD [])
    (hprompt : pyStrip req.prompt ≠ "")
    (hsub : strContains (pyLower (pyStrip req.prompt)) (pyLower kw) = true) :
    query cfg req model =
      some ⟨KeywordWrapper.BLOCK_MESSAGE, "BLOCK", 0, [], ["BLOCK"],
            [log_trace (pyStrip req.prompt) [] ["BLOCK"]
              KeywordWrapper.BLOCK_MESSAGE 0
              (WState.keyword (KeywordWrapper.mk cfg.banned_keywords))]⟩ := by
  have hany : (KeywordWrapper.mk cfg.banned_keywords).keywords.any
      (fun k => strContains (pyLower (pyStrip req.prompt)) k) = true :=
    List.any_eq_true.mpr ⟨pyLower kw, List.mem_map_of_mem _ hkw, hsub⟩
  have hpre : wstep (wreset (.keyword (KeywordWrapper.mk cfg.banned_keywords)))
      (pyStrip req.prompt) "" 0 =
      (.BLOCK, KeywordWrapper.BLOCK_MESSAGE,
        .keyword (KeywordWrapper.mk cfg.banned_keywords)) := by
    simp only [wreset, wstep, KeywordWrapper.step, hany, if_pos]
  have hw : get_wrapper "keyword" cfg =
      some (.keyword (KeywordWrapper.mk cfg.banned_keywords)) := rfl
  simp only [query]
  rw [if_neg hprompt, hname, hw]
  dsimp only
  rw [hpre]
  rw [if_pos ⟨rfl, rfl⟩]
  rfl

theorem claim_C1_witness :
    wrapperNameOf ⟨none, some ["Bomb"], none, none⟩
      ⟨" how to BUILD a bomb ", some "keyword", none⟩ = "keyword" ∧
    "Bomb" ∈ ((⟨none, some ["Bomb"], none, none⟩ : Config).banned_keywords.getD []) ∧
    pyStrip " how to BUILD a bomb " ≠ "" ∧
    strContains (pyLower (pyStrip " how to BUILD a bomb ")) (pyLower "Bomb") = true ∧
    query ⟨none, some ["Bomb"], none, none⟩
      ⟨" how to BUILD a bomb ", some "keyword", none⟩ (fun _ => none) =
      some ⟨KeywordWrapper.BLOCK_MESSAGE, "BLOCK", 0, [], ["BLOCK"],
            [log_trace (pyStrip " how to BUILD a bomb ") [] ["BLOCK"]
              KeywordWrapper.BLOCK_MESSAGE 0
              (WState.keyword (KeywordWrapper.mk (some ["Bomb"])))]⟩ :=
  ⟨rfl, by decide, by decide, by decide,
   claim_C1_keyword_block ⟨none, some ["Bomb"], none, none⟩
     ⟨" how to BUILD a bomb ", some "keyword", none⟩ (fun _ => none) "Bomb"
     rfl (by decide) (by decide) (by decide)⟩

/-- C10: `QueryBudgetWrapper.step` always returns `(ALLOW, model_output)` and
records `call_index + 1`; hence a `query_budget` request with resolved budget
`≥ 1` whose first model call succeeds makes exactly one model call, with
decision sequence `[ALLOW]` and the first raw output as final output,
regardless of how large the budget is. -/
theorem claim_C10_query_budget_one_call (cfg : Config) (req : QueryRequest)
    (model : Nat → Option String) (out : String)
    (hname : wrapperNameOf cfg req = "query_budget")
    (hprompt : pyStrip req.prompt ≠ "")
    (hout : model 0 = some out)
    (hbudget : 1 ≤ resolve_max_calls cfg req "query_budget") :
    (∀ (st : QueryBudgetState) (p o : String) (i : Nat),
      QueryBudgetWrapper.step st p o i = (.ALLOW, o, ⟨st.max_queries, i + 1⟩)) ∧
    query cfg req model =
      some ⟨out, "ALLOW", 1, [out], ["ALLOW"],
            [log_trace (pyStrip req.prompt) [out] ["ALLOW"] out 1
              (WState.query_budget ⟨cfg.qb_max_queries.getD 2, 1⟩)]⟩ := by
  refine ⟨fun st p o i => rfl, ?_⟩
  have hw : get_wrapper "query_budget" cfg =
      some (.query_budget (QueryBudgetWrapper.mk cfg.qb_max_queries)) := rfl
  obtain ⟨m, hm⟩ : ∃ m, (resolve_max_calls cfg req "query_budget").toNat = m + 1 :=
    ⟨(resolve_max_calls cfg req "query_budget").toNat - 1, by omega⟩
  have hstep : wstep
      (wreset (.query_budget (QueryBudgetWrapper.mk cfg.qb_max_queries)))
      (pyStrip req.prompt) out 0 =
      (.ALLOW, out, .query_budget ⟨cfg.qb_max_queries.getD 2, 1⟩) := rfl
  simp only [query]
  rw [if_neg hprompt, hname, hw]
  dsimp only
  rw [if_neg (fun hc => absurd hc.1 (by decide))]
  rw [hm, runLoop]
  simp only [List.length_nil]
  rw [hout]
  dsimp only
  rw [hstep]
  rw [if_neg (fun hc => Action.noConfusion hc)]
  rfl

theorem claim_C10_witness :
    wrapperNameOf ⟨none, none, none, none⟩ ⟨"hi", some "query_budget", some 3⟩ =
      "query_budget" ∧
    pyStrip "hi" ≠ "" ∧
    (fun _ : Nat => some "a") 0 = some "a" ∧
    1 ≤ resolve_max_calls ⟨none, none, none, none⟩
          ⟨"hi", some "query_budget", some 3⟩ "query_budget" ∧
    query ⟨none, none, none, none⟩ ⟨"hi", some "query_budget", some 3⟩
      (fun _ => some "a") =
      some ⟨"a", "ALLOW", 1, ["a"], ["ALLOW"],
            [log_trace (pyStrip "hi") ["a"] ["ALLOW"] "a" 1
              (WState.query_budget ⟨(none : Option Int).getD 2, 1⟩)]⟩ :=
  ⟨rfl, by decide, rfl, by decide,
   (claim_C10_query_budget_one_call ⟨none, none, none, none⟩
     ⟨"hi", some "query_budget", some 3⟩ (fun _ => some "a") "a"
     rfl (by decide) rfl (by decide)).2⟩

/-- C3: for a `query_budget` request, the caller override is accepted only
within `[1, 10]` (otherwise the configured default is used); a completed
request makes at most the resolved budget `N` of model calls, and the
`total_model_calls` value written to the trace equals the length of the
raw-outputs list (the number of calls actually made). -/
theorem claim_C3_budget_respected (cfg : Config) (req : QueryRequest)
    (model : Nat → Option String) (res : QueryOutcome)
    (hname : wrapperNameOf cfg req = "query_budget")
    (h1 : 1 ≤ resolve_max_calls cfg req "query_budget")
    (h10 : resolve_max_calls cfg req "query_budget" ≤ 10)
    (hq : query cfg req model = some res) :
    (∀ u : Int, req.max_queries = some u → 1 ≤ u → u ≤ 10 →
      resolve_max_calls cfg req "query_budget" = u) ∧
    (∀ u : Int, req.max_queries = some u → ¬(1 ≤ u ∧ u ≤ 10) →
      resolve_max_calls cfg req "query_budget" = cfg.qb_max_queries.getD 2) ∧
    (req.max_queries = none →
      resolve_max_calls cfg req "query_budget" = cfg.qb_max_queries.getD 2) ∧
    res.model_call_count ≤ (resolve_max_calls cfg req "query_budget").toNat ∧
    res.model_call_count = res.raw_outputs.length ∧
    (∀ t ∈ res.traces, t.total_model_calls = res.raw_outputs.length) := by
  refine ⟨?_, ?_, ?_, ?_⟩
  · intro u hu hu1 hu10
    simp only [resolve_max_calls]
    rw [if_pos trivial, hu]
    dsimp only
    rw [if_pos ⟨hu1, hu10⟩]
  · intro u hu hub
    simp only [resolve_max_calls]
    rw [if_pos trivial, hu]
    dsimp only
    rw [if_neg hub]
  · intro hu
    simp only [resolve_max_calls]
    rw [if_pos trivial, hu]
  · rcases query_cases cfg req model res hq with
      ⟨_, rfl⟩ | ⟨_, hkw, _, _, _, _⟩ | ⟨_, w, r, _, hr, rfl⟩
    · exact ⟨Nat.zero_le _, rfl, by simp [skip_outcome]⟩
    · rw [hname] at hkw
      exact absurd hkw (by decide)
    · rw [hname] at hr
      have hle := runLoop_length_le model (pyStrip req.prompt) _ _ _ _ _ _ hr
      simp only [List.length_nil, Nat.zero_add] at hle
      refine ⟨hle, rfl, ?_⟩
      intro t ht
      simp only [List.mem_singleton] at ht
      subst ht
      rfl

theorem claim_C3_witness :
    wrapperNameOf ⟨none, none, none, some 2⟩ ⟨"hi", some "query_budget", some 3⟩ =
      "query_budget" ∧
    1 ≤ resolve_max_calls ⟨none, none, none, some 2⟩
          ⟨"hi", some "query_budget", some 3⟩ "query_budget" ∧
    resolve_max_calls ⟨none, none, none, some 2⟩
          ⟨"hi", some "query_budget", some 3⟩ "query_budget" ≤ 10 ∧
    resolve_max_calls ⟨none, none, none, some 2⟩
          ⟨"hi", some "query_budget", some 3⟩ "query_budget" = 3 ∧
    ∀ res : QueryOutcome,
      query ⟨none, none, none, some 2⟩ ⟨"hi", some "query_budget", some 3⟩
        (fun _ => some "a") = some res →
      res.model_call_count ≤
        (resolve_max_calls ⟨none, none, none, some 2⟩
          ⟨"hi", some "query_budget", some 3⟩ "query_budget").toNat :=
  ⟨rfl, by decide, by decide,
   (claim_C3_budget_respected ⟨none, none, none, some 2⟩
       ⟨"hi", some "query_budget", some 3⟩ (fun _ => some "a")
       ⟨"a", "ALLOW", 1, ["a"], ["ALLOW"],
        [log_trace "hi" ["a"] ["ALLOW"] "a" 1
          (WState.query_budget ⟨2, 1⟩)]⟩ rfl (by decide) (by decide)
       (by decide)).1 3 rfl (by decide) (by decide),
   fun res hres =>
     (claim_C3_budget_respected ⟨none, none, none, some 2⟩
       ⟨"hi", some "query_budget", some 3⟩ (fun _ => some "a") res
       rfl (by decide) (by decide) hres).2.2.2.1⟩

/-- C4: when a completed request's decision sequence ends in REQUERY (the
wrapper re-queried on the last budgeted call), the final output is the last
raw model output and the reported `wrapper_decision` is that real last action,
REQUERY — no ALLOW is synthesized. -/
theorem claim_C4_exhaustion_last_raw (cfg : Config) (req : QueryRequest)
    (model : Nat → Option String) (res : QueryOutcome)
    (hq : query cfg req model = some res)
    (hlast : res.decisions_sequence.getLast? = some "REQUERY") :
    res.final_output = res.raw_outputs.getLastD "" ∧
    res.wrapper_decision = "REQUERY" := by
  rcases query_cases cfg req model res hq with
    ⟨_, rfl⟩ | ⟨_, _, w, _, _, rfl⟩ | ⟨_, w, r, hw, hr, rfl⟩
  · dsimp only [skip_outcome] at hlast
    exact absurd hlast (by decide)
  · dsimp only at hlast
    rw [show Action.BLOCK.value = "BLOCK" from rfl] at hlast
    exact absurd hlast (by decide)
  · dsimp only at hlast ⊢
    rw [List.getLast?_map] at hlast
    obtain ⟨a, hdec, hva⟩ :
        ∃ a, r.decisions.getLast? = some a ∧ Action.value a = "REQUERY" := by
      cases h' : r.decisions.getLast? with
      | none => rw [h'] at hlast; simp at hlast
      | some a =>
          rw [h'] at hlast
          exact ⟨a, rfl, by simpa using hlast⟩
    have ha : a = Action.REQUERY := by
      cases a
      case REQUERY => rfl
      all_goals exact absurd hva (by decide)
    subst ha
    by_cases hf : (resolve_max_calls cfg req (wrapperNameOf cfg req)).toNat = 0
    · rw [hf, runLoop] at hr
      cases hr
      simp at hdec
    · have hfin := runLoop_last_requery model (pyStrip req.prompt)
        _ _ _ _ _ _ hf hr hdec
      refine ⟨hfin, ?_⟩
      rw [List.getLastD_eq_getLast?, List.getLast?_map, hdec]
      rfl

theorem claim_C4_witness :
    query ⟨none, none, some 1, none⟩ ⟨"hi", some "history", none⟩
      (fun _ => some "") =
      some ⟨"", "REQUERY", 3, ["", "", ""], ["REQUERY", "REQUERY", "REQUERY"],
        [log_trace "hi" ["", "", ""] ["REQUERY", "REQUERY", "REQUERY"] "" 3
          (WState.history ⟨1, []⟩)]⟩ ∧
    (⟨"", "REQUERY", 3, ["", "", ""], ["REQUERY", "REQUERY", "REQUERY"],
        [log_trace "hi" ["", "", ""] ["REQUERY", "REQUERY", "REQUERY"] "" 3
          (WState.history ⟨1, []⟩)]⟩ : QueryOutcome).final_output =
      (["", "", ""] : List String).getLastD "" ∧
    ("REQUERY" : String) = "REQUERY" :=
  ⟨by decide,
   (claim_C4_exhaustion_last_raw ⟨none, none, some 1, none⟩
     ⟨"hi", some "history", none⟩ (fun _ => some "")
     ⟨"", "REQUERY", 3, ["", "", ""], ["REQUERY", "REQUERY", "REQUERY"],
      [log_trace "hi" ["", "", ""] ["REQUERY", "REQUERY", "REQUERY"] "" 3
        (WState.history ⟨1, []⟩)]⟩ (by decide) (by decide)).1,
   (claim_C4_exhaustion_last_raw ⟨none, none, some 1, none⟩
     ⟨"hi", some "history", none⟩ (fun _ => some "")
     ⟨"", "REQUERY", 3, ["", "", ""], ["REQUERY", "REQUERY", "REQUERY"],
      [log_trace "hi" ["", "", ""] ["REQUERY", "REQUERY", "REQUERY"] "" 3
        (WState.history ⟨1, []⟩)]⟩ (by decide) (by decide)).2⟩

/-- C6 counterexample: the empty-prompt SKIP path returns without writing any
trace record (zero records, not exactly one). -/
theorem claim_C6_counterexample :
    (query ⟨none, none, none, none⟩ ⟨"   ", some "noop", none⟩
        (fun _ => some "a")).map (fun r => r.traces.length) = some 0 := by
  decide

/-- C6 amended: every request that completes normally (keyword pre-check block
or loop completion) appends exactly one trace record; the empty-prompt SKIP
path appends none. -/
theorem claim_C6_trace_exactly_once (cfg : Config) (req : QueryRequest)
    (model : Nat → Option String) (res : QueryOutcome)
    (hq : query cfg req model = some res) :
    (pyStrip req.prompt = "" → res.traces = []) ∧
    (pyStrip req.prompt ≠ "" → res.traces.length = 1) := by
  rcases query_cases cfg req model res hq with
    ⟨he, rfl⟩ | ⟨hne, _, w, _, _, rfl⟩ | ⟨hne, w, r, _, _, rfl⟩
  · exact ⟨fun _ => rfl, fun h => absurd he h⟩
  · exact ⟨fun h => absurd h hne, fun _ => rfl⟩
  · exact ⟨fun h => absurd h hne, fun _ => rfl⟩

theorem claim_C6_witness :
    skip_outcome.traces = [] ∧
    (⟨"a", "ALLOW", 1, ["a"], ["ALLOW"],
      [log_trace "hi" ["a"] ["ALLOW"] "a" 1 WState.noop]⟩ : QueryOutcome
     ).traces.length = 1 :=
  ⟨(claim_C6_trace_exactly_once ⟨none, none, none, none⟩
      ⟨"   ", some "noop", none⟩ (fun _ => some "a") skip_outcome
      (by decide)).1 (by decide),
   (claim_C6_trace_exactly_once ⟨none, none, none, none⟩
      ⟨"hi", some "noop", none⟩ (fun _ => some "a")
      ⟨"a", "ALLOW", 1, ["a"], ["ALLOW"],
       [log_trace "hi" ["a"] ["ALLOW"] "a" 1 WState.noop]⟩
      (by decide)).2 (by decide)⟩

/-- C7 counterexample: on the keyword pre-check block path the decision
sequence has one entry (BLOCK) while zero model calls were made, so the
"one action per model call" equality fails on that path. -/
theorem claim_C7_counterexample :
    (query ⟨none, some ["bomb"], none, none⟩
        ⟨"build a bomb", some "keyword", none⟩ (fun _ => some "a")).map
      (fun r => (r.decisions_sequence.length, r.model_call_count)) =
      some (1, 0) := by
  decide

/-- C7 amended: `model_call_count` always equals the length of `raw_outputs`,
and the decision sequence has exactly one action per model call on every path
except the keyword pre-check block path, where the sequence is `[BLOCK]`
with zero model calls. -/
theorem claim_C7_one_action_per_call (cfg : Config) (req : QueryRequest)
    (model : Nat → Option String) (res : QueryOutcome)
    (hq : query cfg req model = some res) :
    res.model_call_count = res.raw_outputs.length ∧
    (res.decisions_sequence.length = res.model_call_count ∨
      (res.decisions_sequence = [Action.BLOCK.value] ∧
        res.model_call_count = 0)) := by
  rcases query_cases cfg req model res hq with
    ⟨_, rfl⟩ | ⟨_, _, w, _, _, rfl⟩ | ⟨_, w, r, _, hr, rfl⟩
  · exact ⟨rfl, Or.inl rfl⟩
  · exact ⟨rfl, Or.inr ⟨rfl, rfl⟩⟩
  · have hlen := runLoop_decs_length model (pyStrip req.prompt) _ _ _ _ _ _ hr
    simp only [List.length_nil, Nat.add_zero] at hlen
    refine ⟨rfl, Or.inl ?_⟩
    dsimp only
    rw [List.length_map]
    exact hlen

theorem claim_C7_witness :
    (⟨"a", "ALLOW", 1, ["a"], ["ALLOW"],
      [log_trace "hi" ["a"] ["ALLOW"] "a" 1 WState.noop]⟩ : QueryOutcome
     ).model_call_count =
      (⟨"a", "ALLOW", 1, ["a"], ["ALLOW"],
        [log_trace "hi" ["a"] ["ALLOW"] "a" 1 WState.noop]⟩ : QueryOutcome
       ).raw_outputs.length ∧
    ((⟨"a", "ALLOW", 1, ["a"], ["ALLOW"],
       [log_trace "hi" ["a"] ["ALLOW"] "a" 1 WState.noop]⟩ : QueryOutcome
      ).decisions_sequence.length =
      (⟨"a", "ALLOW", 1, ["a"], ["ALLOW"],
        [log_trace "hi" ["a"] ["ALLOW"] "a" 1 WState.noop]⟩ : QueryOutcome
       ).model_call_count ∨
      ((⟨"a", "ALLOW", 1, ["a"], ["ALLOW"],
         [log_trace "hi" ["a"] ["ALLOW"] "a" 1 WState.noop]⟩ : QueryOutcome
        ).decisions_sequence = [Action.BLOCK.value] ∧
       (⟨"a", "ALLOW", 1, ["a"], ["ALLOW"],
         [log_trace "hi" ["a"] ["ALLOW"] "a" 1 WState.noop]⟩ : QueryOutcome
        ).model_call_count = 0)) :=
  claim_C7_one_action_per_call ⟨none, none, none, none⟩
    ⟨"hi", some "noop", none⟩ (fun _ => some "a")
    ⟨"a", "ALLOW", 1, ["a"], ["ALLOW"],
     [log_trace "hi" ["a"] ["ALLOW"] "a" 1 WState.noop]⟩ (by decide)

end SafetyWrappers
